import Mathlib

/-!
Verification of the TrustAgent audit pipeline
(backend-python/src/truthtable), shallowly embedded in Lean 4.

Modelling conventions:
- Python floats are modelled as exact rationals (IEEE rounding is out of
  modelled scope; all constants involved, 0.1/0.3/0.5/0.7/1.0, are exact
  in the claims).
- Fallible Python code is modelled with Option / Except: an uncaught
  Python exception is an `Except.error` / `none` result.
- The JSON values produced by `json.loads` are modelled by the inductive
  `Json`; an unparseable model output (JSONDecodeError) is `none` at the
  call site.
- LLM provider and vector-store collaborators are external; they are
  modelled as function parameters (model output per call, search results
  per query text).
-/

namespace TrustAgent

/-- A decoded JSON value, as produced by Python json.loads.
Object field lists model the decoded dict, so keys are unique. -/
inductive Json where
  | null : Json
  | bool (b : Bool) : Json
  | num (q : ℚ) : Json
  | str (s : String) : Json
  | arr (xs : List Json) : Json
  | obj (fields : List (String × Json)) : Json

/-- VerificationStatus enum from graphs/state.py. -/
inductive VerificationStatus where
  | SUPPORTED
  | UNSUPPORTED
  | PARTIALLY_SUPPORTED
  | UNKNOWN
deriving DecidableEq, Repr

/-- ClaimVerification TypedDict from graphs/state.py. -/
structure ClaimVerification where
  claim : String
  status : VerificationStatus
  confidence : ℚ
  evidence : List String
deriving DecidableEq, Repr

/-! ## Scorer (graphs/nodes/scorer.py) -/

/-- The score_map dict in calculate_faithfulness_score.  The Python code
reads it with `.get(status, 0.0)`; the four enum members cover every key,
so the default is unreachable and the map is a total function.
Constants are written with mkRat (exact value of the decimal literal). -/
def score_map : VerificationStatus → ℚ
  | .SUPPORTED => 1
  | .PARTIALLY_SUPPORTED => mkRat 1 2
  | .UNSUPPORTED => 0
  | .UNKNOWN => mkRat 3 10

/-- calculate_faithfulness_score from scorer.py.  The Python for-loop
accumulates `weighted_sum` and `total_weight`; the two accumulated sums
are written as sums over mapped lists. -/
def calculate_faithfulness_score (verifications : List ClaimVerification) : ℚ :=
  if verifications.isEmpty then 0
  else
    let total_weight := (verifications.map (fun v => max v.confidence (mkRat 1 10))).sum
    let weighted_sum :=
      (verifications.map (fun v => score_map v.status * max v.confidence (mkRat 1 10))).sum
    if total_weight = 0 then 0
    else weighted_sum / total_weight

/-- detect_hallucination from scorer.py: an early-returning scan for a
high-confidence unsupported claim, then a problematic-fraction test. -/
def detect_hallucination (verifications : List ClaimVerification) : Bool :=
  if verifications.isEmpty then false
  else if verifications.any
      (fun v => decide (v.status = .UNSUPPORTED) && decide (v.confidence > mkRat 7 10)) then
    true
  else
    let problematic := (verifications.filter
      (fun v => decide (v.status = .UNSUPPORTED) || decide (v.status = .PARTIALLY_SUPPORTED))).length
    decide ((problematic : ℚ) / (verifications.length : ℚ) > mkRat 3 10)

/-- generate_reasoning_trace from scorer.py.  The Python code computes
`count / total * 100` for each status with `total = len(verifications)`,
unguarded: when `verifications` is empty this raises ZeroDivisionError,
modelled here as `none`.  Numeric formatting (`:.2f`, `:.1f`) is
abstracted to plain `toString` of the exact rational. -/
def generate_reasoning_trace (verifications : List ClaimVerification) (score : ℚ) :
    Option String :=
  let total := verifications.length
  let count := fun (s : VerificationStatus) =>
    (verifications.filter (fun v => decide (v.status = s))).length
  if total = 0 then none
  else
    let pct := fun (n : ℕ) => toString ((n : ℚ) / (total : ℚ) * 100)
    let nSup := count .SUPPORTED
    let nPar := count .PARTIALLY_SUPPORTED
    let nUns := count .UNSUPPORTED
    let nUnk := count .UNKNOWN
    let header := [
      "Faithfulness Score: " ++ toString score ++ "/1.00",
      "",
      "Total Claims Analyzed: " ++ toString total,
      "  ✓ Supported: " ++ toString nSup ++ " (" ++ pct nSup ++ "%)",
      "  ⚠ Partially Supported: " ++ toString nPar ++ " (" ++ pct nPar ++ "%)",
      "  ✗ Unsupported: " ++ toString nUns ++ " (" ++ pct nUns ++ "%)",
      "  ? Unknown: " ++ toString nUnk ++ " (" ++ pct nUnk ++ "%)",
      ""]
    let unsupported := verifications.filter (fun v => decide (v.status = .UNSUPPORTED))
    let detail :=
      if unsupported.isEmpty then []
      else
        ["Unsupported Claims:"] ++
        ((unsupported.take 5).enum.map
          (fun p => "  " ++ toString (p.1 + 1) ++ ". " ++ (p.2.claim.take 100) ++ "...")) ++
        (if unsupported.length > 5 then
          ["  ... and " ++ toString (unsupported.length - 5) ++ " more"]
         else []) ++
        [""]
    some (String.intercalate "\n" (header ++ detail))

/-- ScorerNode.run from scorer.py: computes the score, the hallucination
flag and the reasoning trace in sequence.  The trace generation can raise
(ZeroDivisionError on an empty verification list), which aborts the node,
so the node result is Option. -/
def scorer_run (verifications : List ClaimVerification) : Option (ℚ × Bool × String) :=
  let score := calculate_faithfulness_score verifications
  let hallucination := detect_hallucination verifications
  (generate_reasoning_trace verifications score).map (fun trace => (score, hallucination, trace))

/-! ## Decomposer (graphs/nodes/decomposer.py) -/

/-- Python truthiness of a decoded JSON value, used by the list
comprehension filter `if c and ...` in decompose_claims. -/
def pyTruthy : Json → Bool
  | .null => false
  | .bool b => b
  | .num q => decide (q ≠ 0)
  | .str s => decide (s ≠ "")
  | .arr xs => !xs.isEmpty
  | .obj fs => !fs.isEmpty

/-- Python str.strip(): remove whitespace from both ends. -/
def pyStrip (cs : List Char) : List Char :=
  ((cs.dropWhile Char.isWhitespace).reverse.dropWhile Char.isWhitespace).reverse

/-- The list comprehension
`[c for c in claims if c and len(c.strip()) > 5]` in decompose_claims.
A truthy element that is not a string makes Python call `.strip()` on a
non-string, raising AttributeError, which the outer handler re-raises as
RuntimeError; that abort is an `Except.error`. -/
def filterClaims : List Json → Except String (List String)
  | [] => Except.ok []
  | c :: cs =>
    if pyTruthy c then
      match c with
      | Json.str s =>
          if (pyStrip s.data).length > 5 then
            match filterClaims cs with
            | Except.ok rest => Except.ok (s :: rest)
            | Except.error e => Except.error e
          else filterClaims cs
      | _ => Except.error "Failed to decompose claims: AttributeError"
    else filterClaims cs

/-- decompose_claims from decomposer.py, as a function of the input
response and the decoded model output.  `modelOutput = none` models a
JSONDecodeError from json.loads (caught: whole-response fallback);
decoded output that is not an array raises
ValueError, re-raised by the generic handler as RuntimeError
(an `Except.error`). -/
def decompose_claims (llm_response : String) (modelOutput : Option Json) :
    Except String (List String) :=
  match modelOutput with
  | none => Except.ok [llm_response]
  | some j =>
    match j with
    | Json.arr cs => filterClaims cs
    | _ => Except.error "Failed to decompose claims: Expected JSON array of claims"

/-! ## Verifier (graphs/nodes/verifier.py) -/

/-- Lookup of a key in a decoded JSON object (Python dict indexing /
`.get`); keys of a decoded dict are unique. -/
def lookupField (fields : List (String × Json)) (k : String) : Option Json :=
  (fields.find? (fun p => decide (p.1 = k))).map Prod.snd

/-- Digit-string value; `none` when a non-digit occurs.  The empty list
gives `some 0`, callers check emptiness where Python float() would. -/
def digitsVal : List Char → Option ℕ
  | [] => some 0
  | c :: cs =>
    if c.isDigit then
      (digitsVal cs).map (fun n => (c.toNat - 48) * 10 ^ cs.length + n)
    else none

/-- Split a character list at every dot, keeping empty pieces. -/
def splitOnDot : List Char → List (List Char)
  | [] => [[]]
  | c :: rest =>
    if c = '.' then [] :: splitOnDot rest
    else
      match splitOnDot rest with
      | [] => [[c]]
      | p :: ps => (c :: p) :: ps

/-- Python float() applied to a string, for plain decimal literals
(optional sign, integer and fractional digit runs, surrounding
whitespace).  Exponent, inf and nan spellings are out of modelled scope. -/
def pyFloatOfString (s : String) : Option ℚ :=
  let t := pyStrip s.data
  let sb : ℚ × List Char :=
    match t with
    | '-' :: rest => (-1, rest)
    | '+' :: rest => (1, rest)
    | _ => (1, t)
  match splitOnDot sb.2 with
  | [ip] =>
      if ip.isEmpty then none
      else (digitsVal ip).map (fun n => sb.1 * (n : ℚ))
  | [ip, fp] =>
      if ip.isEmpty && fp.isEmpty then none
      else
        match digitsVal ip, digitsVal fp with
        | some n, some f => some (sb.1 * ((n : ℚ) + (f : ℚ) / (10 : ℚ) ^ fp.length))
        | _, _ => none
  | _ => none

/-- Python float() applied to a decoded JSON value
(`float(result.get("confidence", 0.5))` in verify_claim): numbers pass
through, bools coerce to 1.0/0.0, numeric strings parse, and every other
value raises TypeError (caught by the generic handler). -/
def pyFloat : Json → Option ℚ
  | .num q => some q
  | .bool b => some (if b then 1 else 0)
  | .str s => pyFloatOfString s
  | _ => none

/-- Python str.upper(), character by character (ASCII; the enum member
names compared against are ASCII). -/
def pyUpper (s : String) : String :=
  String.mk (s.data.map Char.toUpper)

/-- The name-indexed lookup `VerificationStatus[status_str]` from
verify_claim: the member names declared in graphs/state.py.  An unknown
name raises KeyError (caught). -/
def statusFromName : String → Option VerificationStatus
  | "SUPPORTED" => some .SUPPORTED
  | "UNSUPPORTED" => some .UNSUPPORTED
  | "PARTIALLY_SUPPORTED" => some .PARTIALLY_SUPPORTED
  | "UNKNOWN" => some .UNKNOWN
  | _ => none

/-- The try-block of verify_claim after json.loads succeeded: index the
decoded object at "status" (TypeError on a non-object, KeyError when
missing, AttributeError when calling .upper() on a non-string), resolve
the upper-cased name in the enum (KeyError when unknown), coerce
"confidence" (default 0.5) with float() (ValueError / TypeError when
non-numeric), and read "evidence" (default []).  `none` is any of those
exceptions, all caught by the handlers.  Python stores the raw
"evidence" value untyped; the embedding projects its string entries,
which is what every consumer of the List[str] field reads. -/
def parseJudgment (j : Json) : Option (VerificationStatus × ℚ × List String) :=
  match j with
  | Json.obj fs =>
    match lookupField fs "status" with
    | some (Json.str s) =>
      match statusFromName (pyUpper s) with
      | some st =>
        match pyFloat ((lookupField fs "confidence").getD (Json.num (mkRat 1 2))) with
        | some conf =>
          let ev := match (lookupField fs "evidence").getD (Json.arr []) with
            | Json.arr xs => xs.filterMap (fun x => match x with
                | Json.str t => some t
                | _ => none)
            | _ => []
          some (st, conf, ev)
        | none => none
      | none => none
    | _ => none
  | _ => none

/-- The ClaimVerification built by both exception handlers of
verify_claim. -/
def unknownFallback (claim : String) : ClaimVerification :=
  { claim := claim, status := .UNKNOWN, confidence := 0, evidence := [] }

/-- verify_claim from verifier.py, as a function of the claim, the
context documents (used only for the prompt) and the decoded model
output (`none` = JSONDecodeError).  Every exception of the try-block is
caught and produces the Unknown fallback, so the function is total. -/
def verify_claim (claim : String) (context_docs : List String)
    (modelOutput : Option Json) : ClaimVerification :=
  match modelOutput with
  | none => unknownFallback claim
  | some j =>
    match parseJudgment j with
    | none => unknownFallback claim
    | some (st, conf, ev) =>
      { claim := claim, status := st, confidence := conf, evidence := ev }

/-- verify_all_claims from verifier.py: sequential per-claim
verification, results in input order; `judge` is the provider output for
each claim. -/
def verify_all_claims (claims : List String) (context_docs : List String)
    (judge : String → Option Json) : List ClaimVerification :=
  claims.map (fun c => verify_claim c context_docs (judge c))

/-! ## Retriever (graphs/nodes/retriever.py) -/

/-- One hit returned by QdrantStore.search (the fields the node reads). -/
structure SearchResult where
  text : String
  score : ℚ
deriving DecidableEq, Repr

/-- The search_texts list built by RetrieverNode.run: the user query
first when truthy (non-empty), then every claim in extraction order. -/
def retrievalQueries (user_query : String) (claims : List String) : List String :=
  (if user_query ≠ "" then [user_query] else []) ++ claims

/-- The seen_texts/context_docs accumulation of RetrieverNode.run: keep
each text on first sight, skip it when already seen. -/
def dedupFirstSeen (seen : List String) : List String → List String
  | [] => []
  | t :: ts =>
    if t ∈ seen then dedupFirstSeen seen ts
    else t :: dedupFirstSeen (t :: seen) ts

/-- RetrieverNode.run from retriever.py as a function of the query
inputs and the store behaviour.  `search` composes the embedding of one
query text with the per-vector Qdrant search (both external
collaborators); the node walks the per-query result lists in order and
deduplicates by exact text.  An empty query list returns [] before any
embedding or store call. -/
def retriever_run (user_query : String) (claims : List String)
    (search : String → List SearchResult) : List String :=
  let search_texts := retrievalQueries user_query claims
  if search_texts.isEmpty then []
  else dedupFirstSeen []
    ((search_texts.map (fun t => (search t).map SearchResult.text)).flatten)

/-! ## Audit state flow (graphs/state.py, graphs/audit_graph.py) -/

/-- AuditState TypedDict from graphs/state.py. -/
structure AuditStateR where
  request_id : String
  user_query : String
  llm_response : String
  context_docs : List String
  claims : Option (List String)
  claim_verifications : Option (List ClaimVerification)
  faithfulness_score : Option ℚ
  hallucination_detected : Option Bool
  reasoning_trace : Option String
deriving Repr

/-- The state update of RetrieverNode.run:
`claims = state.get("claims") or []`, then
`state["context_docs"] = context_docs`, assigning exactly the retrieved
and deduplicated documents (both in the empty-query branch and in the
search branch), which is the field VerifierNode.run then passes to
verify_all_claims as its evidence. -/
def retriever_node_run (search : String → List SearchResult)
    (st : AuditStateR) : AuditStateR :=
  { st with context_docs := retriever_run st.user_query (st.claims.getD []) search }

/-! ## Boundary serialization (grpc/server.py) -/

/-- The proto enum constants of evaluator_pb2 that the status_map in
AuditServicer.GetAuditResult maps onto. -/
inductive ProtoVerificationStatus where
  | VERIFICATION_STATUS_UNSPECIFIED
  | VERIFICATION_STATUS_SUPPORTED
  | VERIFICATION_STATUS_UNSUPPORTED
deriving DecidableEq, Repr

/-- The status_map dict of AuditServicer.GetAuditResult.  The dict holds
each mapping twice (keyed by enum member and by its wire string); the
two key forms map identically, so it is one total function.  The
`.get(status_val, UNSPECIFIED)` default is unreachable for a
VerificationStatus value. -/
def status_map_proto : VerificationStatus → ProtoVerificationStatus
  | .SUPPORTED => .VERIFICATION_STATUS_SUPPORTED
  | .UNSUPPORTED => .VERIFICATION_STATUS_UNSUPPORTED
  | .PARTIALLY_SUPPORTED => .VERIFICATION_STATUS_UNSUPPORTED
  | .UNKNOWN => .VERIFICATION_STATUS_UNSPECIFIED

/-- The evaluator_pb2.ClaimVerification message fields filled by
GetAuditResult. -/
structure ProtoClaimVerification where
  claim : String
  status : ProtoVerificationStatus
  confidence : ℚ
  evidence : List String
deriving DecidableEq, Repr

/-- The per-verification message built inside the claims loop of
AuditServicer.GetAuditResult. -/
def serialize_claim_verification (cv : ClaimVerification) : ProtoClaimVerification :=
  { claim := cv.claim
    status := status_map_proto cv.status
    confidence := cv.confidence
    evidence := cv.evidence }

/-- The claims list built by AuditServicer.GetAuditResult for a
completed audit. -/
def serialize_verifications (cvs : List ClaimVerification) : List ProtoClaimVerification :=
  cvs.map serialize_claim_verification

/-! ## Helper lemmas -/

theorem mkRat_tenth : mkRat 1 10 = (1 : ℚ)/10 := by
  rw [Rat.mkRat_eq_div]; norm_num

theorem mkRat_tenth_pos : (0 : ℚ) < mkRat 1 10 := by
  rw [mkRat_tenth]; norm_num

theorem dedupFirstSeen_mem (ts : List String) :
    ∀ seen x, x ∈ dedupFirstSeen seen ts → x ∈ ts ∧ x ∉ seen := by
  induction ts with
  | nil => intro seen x hx; simp [dedupFirstSeen] at hx
  | cons t ts ih =>
    intro seen x hx
    by_cases h : t ∈ seen
    · simp only [dedupFirstSeen, if_pos h] at hx
      rcases ih seen x hx with ⟨h1, h2⟩
      exact ⟨List.mem_cons_of_mem _ h1, h2⟩
    · simp only [dedupFirstSeen, if_neg h] at hx
      rcases List.mem_cons.mp hx with rfl | hx2
      · exact ⟨List.mem_cons_self _ _, h⟩
      · rcases ih (t :: seen) x hx2 with ⟨h1, h2⟩
        refine ⟨List.mem_cons_of_mem _ h1, fun hmem => h2 (List.mem_cons_of_mem _ hmem)⟩

theorem dedupFirstSeen_nodup (ts : List String) :
    ∀ seen, (dedupFirstSeen seen ts).Nodup := by
  induction ts with
  | nil => intro seen; simp [dedupFirstSeen]
  | cons t ts ih =>
    intro seen
    by_cases h : t ∈ seen
    · simp only [dedupFirstSeen, if_pos h]; exact ih seen
    · simp only [dedupFirstSeen, if_neg h]
      refine List.nodup_cons.mpr ⟨?_, ih (t :: seen)⟩
      intro hmem
      exact (dedupFirstSeen_mem ts (t :: seen) t hmem).2 (List.mem_cons_self _ _)

/-! ## Claim theorems -/

/-- C5 (code bug): aggregating an empty verification list does not
complete: the score and hallucination functions do return 0.0 and false
on the empty list, but generate_reasoning_trace divides by
total = len(verifications) = 0 and raises ZeroDivisionError (modelled as
none), so ScorerNode.run aborts instead of producing the contracted
result. -/
theorem aggregate_empty_zero_division :
    scorer_run [] = none ∧
    calculate_faithfulness_score [] = 0 ∧
    detect_hallucination [] = false ∧
    generate_reasoning_trace [] 0 = none :=
  ⟨rfl, rfl, rfl, rfl⟩

/-- C10: the boundary status map of GetAuditResult sends
PARTIALLY_SUPPORTED to the same wire constant as UNSUPPORTED
(VERIFICATION_STATUS_UNSUPPORTED), and UNKNOWN to
VERIFICATION_STATUS_UNSPECIFIED, so the two are indistinguishable to an
external caller. -/
theorem wire_status_merges_partially_supported
    (cv1 cv2 cv3 : ClaimVerification)
    (h1 : cv1.status = .PARTIALLY_SUPPORTED) (h2 : cv2.status = .UNSUPPORTED)
    (h3 : cv3.status = .UNKNOWN) :
    (serialize_claim_verification cv1).status = .VERIFICATION_STATUS_UNSUPPORTED ∧
    (serialize_claim_verification cv1).status = (serialize_claim_verification cv2).status ∧
    (serialize_claim_verification cv3).status = .VERIFICATION_STATUS_UNSPECIFIED := by
  simp [serialize_claim_verification, status_map_proto, h1, h2, h3]

theorem wire_status_merges_partially_supported_witness :
    (serialize_claim_verification ⟨"a", .PARTIALLY_SUPPORTED, 1, []⟩).status
      = .VERIFICATION_STATUS_UNSUPPORTED ∧
    (serialize_claim_verification ⟨"a", .PARTIALLY_SUPPORTED, 1, []⟩).status
      = (serialize_claim_verification ⟨"b", .UNSUPPORTED, 1, []⟩).status ∧
    (serialize_claim_verification ⟨"c", .UNKNOWN, 0, []⟩).status
      = .VERIFICATION_STATUS_UNSPECIFIED :=
  wire_status_merges_partially_supported
    ⟨"a", .PARTIALLY_SUPPORTED, 1, []⟩ ⟨"b", .UNSUPPORTED, 1, []⟩
    ⟨"c", .UNKNOWN, 0, []⟩ rfl rfl rfl

/-- C9: replacing any Supported entry of a verification list with an
Unsupported entry of confidence > 0.7 (= mkRat 7 10) makes
detect_hallucination true (unconditionally, hence also when it was not
already true). -/
theorem hallucination_monotone (l1 l2 : List ClaimVerification)
    (v v' : ClaimVerification) (hv : v.status = .SUPPORTED)
    (hs : v'.status = .UNSUPPORTED) (hc : v'.confidence > mkRat 7 10) :
    detect_hallucination (l1 ++ v' :: l2) = true := by
  have hne : (l1 ++ v' :: l2).isEmpty = false := by
    simp [List.isEmpty_iff]
  have hany : (l1 ++ v' :: l2).any
      (fun w => decide (w.status = .UNSUPPORTED) && decide (w.confidence > mkRat 7 10)) = true := by
    rw [List.any_eq_true]
    exact ⟨v', by simp, by simp [hs, hc]⟩
  simp [detect_hallucination, hne, hany]

theorem hallucination_monotone_witness :
    detect_hallucination [(⟨"b", .UNSUPPORTED, mkRat 9 10, []⟩ : ClaimVerification)] = true :=
  hallucination_monotone [] [] ⟨"a", .SUPPORTED, 1, []⟩
    ⟨"b", .UNSUPPORTED, mkRat 9 10, []⟩ rfl rfl (by decide)

theorem mkRat_half : mkRat 1 2 = (1 : ℚ)/2 := by
  rw [Rat.mkRat_eq_div]; norm_num

theorem mkRat_three_tenths : mkRat 3 10 = (3 : ℚ)/10 := by
  rw [Rat.mkRat_eq_div]; norm_num

/-- C3: for a non-empty verification list the faithfulness score is the
confidence-weighted average of per-status base scores with weight
max(confidence, 0.1); the base-score table is the one of the spec
(mkRat a b is the exact rational a/b). -/
theorem faithfulness_score_weighted_average (l : List ClaimVerification) (h : l ≠ []) :
    calculate_faithfulness_score l =
      (l.map (fun v => score_map v.status * max v.confidence (mkRat 1 10))).sum /
      (l.map (fun v => max v.confidence (mkRat 1 10))).sum ∧
    score_map .SUPPORTED = 1 ∧ score_map .PARTIALLY_SUPPORTED = 1/2 ∧
    score_map .UNSUPPORTED = 0 ∧ score_map .UNKNOWN = 3/10 ∧
    mkRat 1 10 = 1/10 := by
  refine ⟨?_, rfl, mkRat_half, rfl, mkRat_three_tenths, mkRat_tenth⟩
  have hpos : 0 < (l.map (fun v => max v.confidence (mkRat 1 10))).sum := by
    apply List.sum_pos
    · intro x hx
      obtain ⟨v, hv, rfl⟩ := List.mem_map.mp hx
      exact lt_of_lt_of_le mkRat_tenth_pos (le_max_right _ _)
    · simpa using h
  have hne : l.isEmpty = false := by simp [List.isEmpty_iff, h]
  simp only [calculate_faithfulness_score, hne, Bool.false_eq_true, if_false]
  rw [if_neg hpos.ne']

theorem faithfulness_score_weighted_average_witness :
    ([(⟨"a", .SUPPORTED, 1, []⟩ : ClaimVerification)] ≠ []) ∧
    (calculate_faithfulness_score [(⟨"a", .SUPPORTED, 1, []⟩ : ClaimVerification)] =
      ([(⟨"a", .SUPPORTED, 1, []⟩ : ClaimVerification)].map
        (fun v => score_map v.status * max v.confidence (mkRat 1 10))).sum /
      ([(⟨"a", .SUPPORTED, 1, []⟩ : ClaimVerification)].map
        (fun v => max v.confidence (mkRat 1 10))).sum ∧
    score_map .SUPPORTED = 1 ∧ score_map .PARTIALLY_SUPPORTED = 1/2 ∧
    score_map .UNSUPPORTED = 0 ∧ score_map .UNKNOWN = 3/10 ∧
    mkRat 1 10 = 1/10) :=
  ⟨by decide, faithfulness_score_weighted_average
    [(⟨"a", .SUPPORTED, 1, []⟩ : ClaimVerification)] (by decide)⟩

/-- C4: for a non-empty verification list the hallucination flag is true
iff some verification is UNSUPPORTED with confidence > 0.7
(= mkRat 7 10), or the fraction of UNSUPPORTED / PARTIALLY_SUPPORTED
verifications exceeds 0.3 (= mkRat 3 10). -/
theorem hallucination_flag_iff (l : List ClaimVerification) (h : l ≠ []) :
    detect_hallucination l = true ↔
      ((∃ v ∈ l, v.status = .UNSUPPORTED ∧ v.confidence > mkRat 7 10) ∨
       ((l.countP (fun v =>
          decide (v.status = .UNSUPPORTED ∨ v.status = .PARTIALLY_SUPPORTED)) : ℚ)
         / (l.length : ℚ) > mkRat 3 10)) := by
  have hne : l.isEmpty = false := by simp [List.isEmpty_iff, h]
  have hcnt : (l.filter (fun v =>
        decide (v.status = .UNSUPPORTED) || decide (v.status = .PARTIALLY_SUPPORTED))).length
      = l.countP (fun v =>
          decide (v.status = .UNSUPPORTED ∨ v.status = .PARTIALLY_SUPPORTED)) := by
    rw [List.countP_eq_length_filter]
    congr 1
    apply List.filter_congr
    intro x hx
    simp
  cases hany : l.any (fun v =>
      decide (v.status = .UNSUPPORTED) && decide (v.confidence > mkRat 7 10)) with
  | true =>
    have hval : detect_hallucination l = true := by
      simp [detect_hallucination, hne, hany]
    rw [List.any_eq_true] at hany
    obtain ⟨v, hv, hp⟩ := hany
    rw [Bool.and_eq_true, decide_eq_true_eq, decide_eq_true_eq] at hp
    exact iff_of_true hval (Or.inl ⟨v, hv, hp.1, hp.2⟩)
  | false =>
    have hnoex : ¬ ∃ v ∈ l, v.status = .UNSUPPORTED ∧ v.confidence > mkRat 7 10 := by
      rintro ⟨v, hv, h1, h2⟩
      have hx : l.any (fun v =>
          decide (v.status = .UNSUPPORTED) && decide (v.confidence > mkRat 7 10)) = true :=
        List.any_eq_true.mpr ⟨v, hv, by simp [h1, h2]⟩
      rw [hany] at hx
      cases hx
    have hval : detect_hallucination l = true ↔
        ((l.filter (fun v =>
          decide (v.status = .UNSUPPORTED) || decide (v.status = .PARTIALLY_SUPPORTED))).length : ℚ)
          / (l.length : ℚ) > mkRat 3 10 := by
      simp [detect_hallucination, hne, hany]
    rw [hval, hcnt]
    constructor
    · exact Or.inr
    · rintro (hex | hr)
      · exact absurd hex hnoex
      · exact hr

theorem hallucination_flag_iff_witness :
    ([(⟨"a", .UNSUPPORTED, 1, []⟩ : ClaimVerification)] ≠ []) ∧
    (detect_hallucination [(⟨"a", .UNSUPPORTED, 1, []⟩ : ClaimVerification)] = true ↔
      ((∃ v ∈ [(⟨"a", .UNSUPPORTED, 1, []⟩ : ClaimVerification)],
          v.status = .UNSUPPORTED ∧ v.confidence > mkRat 7 10) ∨
       (([(⟨"a", .UNSUPPORTED, 1, []⟩ : ClaimVerification)].countP (fun v =>
          decide (v.status = .UNSUPPORTED ∨ v.status = .PARTIALLY_SUPPORTED)) : ℚ)
         / (([(⟨"a", .UNSUPPORTED, 1, []⟩ : ClaimVerification)].length : ℚ)) > mkRat 3 10))) :=
  ⟨by decide, hallucination_flag_iff
    [(⟨"a", .UNSUPPORTED, 1, []⟩ : ClaimVerification)] (by decide)⟩

/-- C7: the retriever output never contains duplicate text entries, and
with an empty user query and no claims it returns [] for every possible
store behaviour (the store is not consulted). -/
theorem retrieve_nodup_and_empty :
    (∀ (uq : String) (claims : List String) (search : String → List SearchResult),
        (retriever_run uq claims search).Nodup) ∧
    (∀ search : String → List SearchResult, retriever_run "" [] search = []) := by
  constructor
  · intro uq claims search
    by_cases he : (retrievalQueries uq claims).isEmpty
    · simp [retriever_run, he]
    · simp only [retriever_run, he, Bool.false_eq_true, if_false]
      exact dedupFirstSeen_nodup _ _
  · intro search
    rfl

theorem retrieve_nodup_and_empty_witness :
    (retriever_run "q" ["c"]
      (fun _ => [(⟨"d", 1⟩ : SearchResult), (⟨"d", 1⟩ : SearchResult)])).Nodup ∧
    retriever_run "" [] (fun _ => [(⟨"d", 1⟩ : SearchResult)]) = [] :=
  ⟨retrieve_nodup_and_empty.1 "q" ["c"]
      (fun _ => [(⟨"d", 1⟩ : SearchResult), (⟨"d", 1⟩ : SearchResult)]),
   retrieve_nodup_and_empty.2 (fun _ => [(⟨"d", 1⟩ : SearchResult)])⟩

/-- C2 counterexample: a caller-supplied context document is not
preserved by the retrieval stage.  With retrieval configured (a store
returning no hits here), the state after RetrieverNode.run carries [] as
context_docs although the caller supplied one document, so the verifier
does not receive the union of caller context and retrieved evidence. -/
theorem retrieval_drops_caller_context :
    ((⟨"r1", "q", "resp", ["caller supplied document"], some [],
        none, none, none, none⟩ : AuditStateR).context_docs
      = ["caller supplied document"]) ∧
    ((retriever_node_run (fun _ => [])
        (⟨"r1", "q", "resp", ["caller supplied document"], some [],
          none, none, none, none⟩ : AuditStateR)).context_docs = []) :=
  ⟨rfl, rfl⟩

/-- C2 (amended): after the retrieve stage the context_docs field (the
evidence VerifierNode.run passes to verification) consists only of
retrieved snippets: every document originates from a store search result
for one of the retrieval queries, and the caller-supplied context_docs
value has no influence on the outcome. -/
theorem retrieval_overwrites_caller_context (st : AuditStateR)
    (search : String → List SearchResult) (d : String)
    (hd : d ∈ (retriever_node_run search st).context_docs) :
    (∃ t ∈ retrievalQueries st.user_query (st.claims.getD []),
        ∃ r ∈ search t, r.text = d) ∧
    (∀ docs2 : List String,
      (retriever_node_run search { st with context_docs := docs2 }).context_docs
        = (retriever_node_run search st).context_docs) := by
  refine ⟨?_, fun docs2 => rfl⟩
  have hd' : d ∈ retriever_run st.user_query (st.claims.getD []) search := hd
  by_cases he : (retrievalQueries st.user_query (st.claims.getD [])).isEmpty
  · simp [retriever_run, he] at hd'
  · simp only [retriever_run, he, Bool.false_eq_true, if_false] at hd'
    have hmem := (dedupFirstSeen_mem _ _ _ hd').1
    rw [List.mem_flatten] at hmem
    obtain ⟨inner, hinner, hdin⟩ := hmem
    rw [List.mem_map] at hinner
    obtain ⟨t, ht, rfl⟩ := hinner
    rw [List.mem_map] at hdin
    obtain ⟨r, hr, rfl⟩ := hdin
    exact ⟨t, ht, r, hr, rfl⟩

theorem retrieval_overwrites_caller_context_witness :
    ("hit text" ∈ (retriever_node_run
        (fun _ => [(⟨"hit text", 1⟩ : SearchResult)])
        (⟨"r1", "q", "resp", ["caller doc"], some [], none, none, none, none⟩ :
          AuditStateR)).context_docs) ∧
    ((∃ t ∈ retrievalQueries "q" ((some ([] : List String)).getD []),
        ∃ r ∈ (fun (_ : String) => [(⟨"hit text", 1⟩ : SearchResult)]) t,
          r.text = "hit text") ∧
     (∀ docs2 : List String,
      (retriever_node_run (fun _ => [(⟨"hit text", 1⟩ : SearchResult)])
        { (⟨"r1", "q", "resp", ["caller doc"], some [], none, none, none, none⟩ :
            AuditStateR) with context_docs := docs2 }).context_docs
        = (retriever_node_run (fun _ => [(⟨"hit text", 1⟩ : SearchResult)])
            (⟨"r1", "q", "resp", ["caller doc"], some [], none, none, none, none⟩ :
              AuditStateR)).context_docs)) :=
  ⟨by decide, retrieval_overwrites_caller_context
    (⟨"r1", "q", "resp", ["caller doc"], some [], none, none, none, none⟩ : AuditStateR)
    (fun _ => [(⟨"hit text", 1⟩ : SearchResult)]) "hit text" (by decide)⟩

/-- C1 counterexample: a model output that parses as JSON but is not an
array does not trigger the whole-response fallback; decompose_claims
raises (RuntimeError, modelled as Except.error) instead of returning the
single whole-response claim. -/
theorem decompose_nonarray_no_fallback :
    decompose_claims "The sky is green" (some (Json.obj [])) =
      Except.error "Failed to decompose claims: Expected JSON array of claims" ∧
    decompose_claims "The sky is green" (some (Json.obj [])) ≠
      Except.ok ["The sky is green"] :=
  ⟨rfl, fun hcontra => Except.noConfusion hcontra⟩

/-- C1 (amended): the whole-response fallback fires exactly on
unparseable model output (JSONDecodeError, modelled as none); a decoded
JSON value that is not an array instead raises RuntimeError to the
caller (Except.error). -/
theorem decompose_fallback_only_on_bad_json (resp : String) (j : Json)
    (h : ∀ xs, j ≠ Json.arr xs) :
    decompose_claims resp none = Except.ok [resp] ∧
    decompose_claims resp (some j) =
      Except.error "Failed to decompose claims: Expected JSON array of claims" := by
  refine ⟨rfl, ?_⟩
  cases j with
  | arr xs => exact absurd rfl (h xs)
  | null => rfl
  | bool b => rfl
  | num q => rfl
  | str s => rfl
  | obj fs => rfl

theorem decompose_fallback_only_on_bad_json_witness :
    decompose_claims "Water is wet and blue" none =
      Except.ok ["Water is wet and blue"] ∧
    decompose_claims "Water is wet and blue" (some (Json.num 3)) =
      Except.error "Failed to decompose claims: Expected JSON array of claims" :=
  decompose_fallback_only_on_bad_json "Water is wet and blue" (Json.num 3)
    (fun _ hx => Json.noConfusion hx)

theorem filterClaims_ok_mem : ∀ (cs : List Json) (out : List String),
    filterClaims cs = Except.ok out → ∀ c ∈ out, (pyStrip c.data).length > 5 := by
  intro cs
  induction cs with
  | nil =>
    intro out hout c hc
    simp only [filterClaims] at hout
    injection hout with h
    subst h
    simp at hc
  | cons hd tl ih =>
    intro out hout c hc
    simp only [filterClaims] at hout
    by_cases ht : pyTruthy hd
    · rw [if_pos ht] at hout
      cases hd with
      | str s =>
        have hout2 : (if (pyStrip s.data).length > 5 then
            (match filterClaims tl with
              | Except.ok rest => Except.ok (s :: rest)
              | Except.error e => Except.error e)
            else filterClaims tl) = Except.ok out := hout
        by_cases hl : (pyStrip s.data).length > 5
        · rw [if_pos hl] at hout2
          cases hrec : filterClaims tl with
          | ok rest =>
            rw [hrec] at hout2
            injection hout2 with h
            subst h
            rcases List.mem_cons.mp hc with rfl | hcm
            · exact hl
            · exact ih rest hrec c hcm
          | error e =>
            rw [hrec] at hout2
            exact Except.noConfusion hout2
        · rw [if_neg hl] at hout2
          exact ih out hout2 c hc
      | null => exact Except.noConfusion hout
      | bool b => exact Except.noConfusion hout
      | num q => exact Except.noConfusion hout
      | arr xs => exact Except.noConfusion hout
      | obj fs => exact Except.noConfusion hout
    · rw [if_neg ht] at hout
      exact ih out hout c hc

/-- C8 counterexample: when the model output is unparseable the fallback
claim is the whole input response, which can violate the length > 5
claim invariant; "Hi" is returned as a claim although its stripped
length is 2. -/
theorem extract_fallback_short_claim :
    decompose_claims "Hi" none = Except.ok ["Hi"] ∧
    ¬ ((pyStrip "Hi".data).length > 5) :=
  ⟨rfl, by decide⟩

/-- C8 (amended): every claim returned by a successful decomposition of
a well-formed (JSON array) output is non-empty after stripping and has
stripped length > 5; for unparseable output the result is exactly one
claim equal to the whole input response (with no length guarantee). -/
theorem extract_claim_invariant (resp : String) (cs : List Json) (out : List String)
    (h : decompose_claims resp (some (Json.arr cs)) = Except.ok out) :
    (∀ c ∈ out, pyStrip c.data ≠ [] ∧ (pyStrip c.data).length > 5) ∧
    decompose_claims resp none = Except.ok [resp] := by
  refine ⟨?_, rfl⟩
  intro c hc
  have hlen := filterClaims_ok_mem cs out h c hc
  refine ⟨?_, hlen⟩
  intro hnil
  rw [hnil] at hlen
  simp at hlen

theorem extract_claim_invariant_witness :
    (decompose_claims "resp text"
        (some (Json.arr [Json.str "Paris is the capital of France"]))
      = Except.ok ["Paris is the capital of France"]) ∧
    ((∀ c ∈ ["Paris is the capital of France"],
        pyStrip c.data ≠ [] ∧ (pyStrip c.data).length > 5) ∧
     decompose_claims "resp text" none = Except.ok ["resp text"]) :=
  ⟨rfl, extract_claim_invariant "resp text"
    [Json.str "Paris is the capital of France"]
    ["Paris is the capital of France"] rfl⟩

/-- C6: verify_claim is total and returns the Unknown fallback
(status UNKNOWN, confidence 0.0, empty evidence) on every parse failure:
unparseable output (none), and any decoded output whose judgment cannot
be read, exemplified by a missing status field, an unknown status name,
and a non-numeric confidence. -/
theorem verify_parse_failure_fallback (claim : String) (docs : List String)
    (modelOutput : Option Json)
    (h : modelOutput = none ∨ ∃ j, modelOutput = some j ∧ parseJudgment j = none) :
    verify_claim claim docs modelOutput = unknownFallback claim ∧
    (unknownFallback claim).status = .UNKNOWN ∧
    (unknownFallback claim).confidence = 0 ∧
    (unknownFallback claim).evidence = [] ∧
    parseJudgment (Json.obj []) = none ∧
    parseJudgment (Json.obj [("status", Json.str "ENTAILMENT")]) = none ∧
    parseJudgment (Json.obj [("status", Json.str "SUPPORTED"),
        ("confidence", Json.str "very confident")]) = none := by
  refine ⟨?_, rfl, rfl, rfl, by decide, by decide, by decide⟩
  rcases h with rfl | ⟨j, rfl, hj⟩
  · rfl
  · simp only [verify_claim, hj]

theorem verify_parse_failure_fallback_witness :
    ((some (Json.obj []) : Option Json) = none ∨
      ∃ j, (some (Json.obj []) : Option Json) = some j ∧ parseJudgment j = none) ∧
    (verify_claim "Paris is in France" ["doc"] (some (Json.obj [])) =
        unknownFallback "Paris is in France" ∧
      (unknownFallback "Paris is in France").status = .UNKNOWN ∧
      (unknownFallback "Paris is in France").confidence = 0 ∧
      (unknownFallback "Paris is in France").evidence = [] ∧
      parseJudgment (Json.obj []) = none ∧
      parseJudgment (Json.obj [("status", Json.str "ENTAILMENT")]) = none ∧
      parseJudgment (Json.obj [("status", Json.str "SUPPORTED"),
          ("confidence", Json.str "very confident")]) = none) :=
  ⟨Or.inr ⟨Json.obj [], rfl, by decide⟩,
   verify_parse_failure_fallback "Paris is in France" ["doc"]
    (some (Json.obj [])) (Or.inr ⟨Json.obj [], rfl, by decide⟩)⟩

end TrustAgent
